import Mathlib

/-!
Shallow embedding of `src/main.py` (repository `update_google_sheet`):
an HTTP Cloud Run webhook handler `update_google_sheet(request)` that
validates a JSON payload and writes selected fields into fixed columns
of a remote Google Sheet via gspread.

Modelling conventions:
* A parsed JSON value is `JVal` (Python objects from `json` / Flask
  `get_json`).  `request.get_json(silent=True)` is modelled as
  `Option JVal` (`none` = body absent or unparseable).
* Python `None` is `JVal.null`; `dict.get(k)` returns `JVal.null` when
  the key is absent, exactly as Python returns `None`.
* Python truthiness of the parsed values follows `JVal.truthy`.
* Python exceptions relevant to the handler are `PyExn`; `int(x)`
  is `pyInt` (ValueError on a bad string, TypeError on list/dict/None).
* The remote side (gspread) is an oracle `Env`: `openErr` tells whether
  `get_sheet()` (connection setup + worksheet open) raises and with what
  message, `writeErr k` whether the k-th `update_cell` call of the
  invocation raises and with what message.
* The run of the handler is `RunResult`: the returned Flask response or
  an uncaught exception, whether `get_sheet()` was invoked, and the
  list of cell writes actually performed.
-/

/-- A parsed JSON value, as produced by the Python `json` module.
Numbers are modelled as integers (the claims only involve integral
numbers); object fields are listed in insertion order with distinct
keys, as in a Python dict. -/
inductive JVal where
  | null : JVal
  | bool : Bool → JVal
  | num : Int → JVal
  | str : String → JVal
  | arr : List JVal → JVal
  | obj : List (String × JVal) → JVal
deriving Repr

/-- Python `x is None` on a parsed JSON value. -/
def JVal.isNull : JVal → Bool
  | .null => true
  | _ => false

/-- Python truthiness (`bool(x)`) of a parsed JSON value. -/
def JVal.truthy : JVal → Bool
  | .null => false
  | .bool b => b
  | .num n => n != 0
  | .str s => !s.isEmpty
  | .arr l => !l.isEmpty
  | .obj l => !l.isEmpty

/-- Python `d.get(k)` on a parsed JSON object: the value of the key,
or `None` (`JVal.null`) when the key is absent. -/
def objGet (fields : List (String × JVal)) (k : String) : JVal :=
  match fields.lookup k with
  | some v => v
  | none => JVal.null

/-- The Python exceptions the handler can meet, with their message text. -/
inductive PyExn where
  | valueError : String → PyExn
  | typeError : String → PyExn
  | attributeError : String → PyExn
  | external : String → PyExn
deriving Repr, DecidableEq

/-- `str(e)` of an exception: the message text. -/
def PyExn.msg : PyExn → String
  | .valueError m => m
  | .typeError m => m
  | .attributeError m => m
  | .external m => m

/-- Whether a character is ASCII whitespace (stripped by Python `int`). -/
def isSpaceChar (c : Char) : Bool :=
  c = ' ' || c = '\t' || c = '\n' || c = '\r' || c = '\x0b' || c = '\x0c'

/-- Digits of a Python integer literal body: nonempty ASCII digits,
optionally grouped by single underscores between digits. -/
def digitsBody : List Char → Bool
  | [] => false
  | [c] => c.isDigit
  | c :: d :: rest =>
      if c.isDigit then
        if d = '_' then
          match rest with
          | [] => false
          | e :: _ => e.isDigit && digitsBody rest
        else digitsBody (d :: rest)
      else false

/-- Numeric value of such a digit list (underscores skipped). -/
def digitsVal : List Char → Nat
  | [] => 0
  | c :: rest =>
      if c = '_' then digitsVal rest
      else digitsVal rest + c.toNat.sub 48 * 10 ^ (rest.filter (fun d => d != '_')).length

/-- Python `int(s)` on a string: strip whitespace, optional sign,
ASCII digits (with underscore grouping); `none` when `int` would raise
`ValueError`. -/
def strToInt (s : String) : Option Int :=
  let cs := (s.data.dropWhile isSpaceChar).reverse.dropWhile isSpaceChar |>.reverse
  match cs with
  | '+' :: rest => if digitsBody rest then some (Int.ofNat (digitsVal rest)) else none
  | '-' :: rest => if digitsBody rest then some (-(Int.ofNat (digitsVal rest))) else none
  | rest => if digitsBody rest then some (Int.ofNat (digitsVal rest)) else none

/-- Python `int(x)` on a parsed JSON value: numbers and booleans
convert, strings parse or raise `ValueError`, anything else raises
`TypeError`. -/
def pyInt : JVal → Except PyExn Int
  | .num n => .ok n
  | .bool b => .ok (if b then 1 else 0)
  | .str s =>
      match strToInt s with
      | some n => .ok n
      | none => .error (.valueError ("invalid literal for int() with base 10: " ++ s))
  | .null => .error (.typeError "int() argument must not be NoneType")
  | .arr _ => .error (.typeError "int() argument must not be list")
  | .obj _ => .error (.typeError "int() argument must not be dict")

/-- One `update_cell(row, col, value)` call that succeeded. -/
structure CellWrite where
  row : Int
  col : Nat
  value : JVal
deriving Repr

/-- The remote spreadsheet side as an oracle: whether `get_sheet()`
raises, and whether the k-th `update_cell` call raises (`none` =
the call succeeds). Messages are the `str(e)` texts. -/
structure Env where
  openErr : Option String
  writeErr : Nat → Option String

/-- What the handler invocation produced: a Flask response
`(body, status)` — the code never sets headers, so `headers` is
always `[]` — or an exception that escaped the handler. -/
inductive Outcome where
  | response (body : String) (status : Nat) (headers : List (String × String)) : Outcome
  | uncaught (e : PyExn) : Outcome
deriving Repr, DecidableEq

/-- Status code of an outcome, `none` for an uncaught exception. -/
def Outcome.statusOf : Outcome → Option Nat
  | .response _ s _ => some s
  | .uncaught _ => none

/-- The observable effects of one handler invocation. -/
structure RunResult where
  outcome : Outcome
  opened : Bool
  writes : List CellWrite
deriving Repr

-- Column mapping constants of `update_google_sheet` (1-based).
def COL_APPOINT_DATE_TIME : Nat := 5
def COL_APPOINTMENT_TIME : Nat := 6
def COL_CALL_STATUS : Nat := 7
def COL_CALL_SUMMARY : Nat := 8
def COL_EMAIL_ID : Nat := 9

/-- The `updates` dict built by the handler, as its insertion-ordered
item list: one `(column, value)` entry per field whose payload value
is not `None`, in source order of the five `if` statements. -/
def updatesDict (appointDateTime appointmentTime callStatus callSummary emailId : JVal) :
    List (Nat × JVal) :=
  (if appointDateTime.isNull then [] else [(COL_APPOINT_DATE_TIME, appointDateTime)]) ++
  (if appointmentTime.isNull then [] else [(COL_APPOINTMENT_TIME, appointmentTime)]) ++
  (if callStatus.isNull then [] else [(COL_CALL_STATUS, callStatus)]) ++
  (if callSummary.isNull then [] else [(COL_CALL_SUMMARY, callSummary)]) ++
  (if emailId.isNull then [] else [(COL_EMAIL_ID, emailId)])

/-- The `for col, value in updates.items()` loop: perform
`update_cell` calls in order starting at call index `k`, stopping at
the first call the oracle makes raise; returns the writes performed
and the raised message, if any. -/
def doWrites (env : Env) (row : Int) : Nat → List (Nat × JVal) →
    List CellWrite × Option String
  | _, [] => ([], none)
  | k, (c, v) :: rest =>
      match env.writeErr k with
      | some m => ([], some m)
      | none =>
          let r := doWrites env row (k + 1) rest
          (⟨row, c, v⟩ :: r.1, r.2)

/-- The body of the outer `try` of `update_google_sheet`, after
`sheet_row_index` has been converted to an integer: open the sheet,
build `updates`, and write each cell; every exception here is caught
by the `except Exception` clause and turned into the 500 response. -/
def tryUpdate (env : Env) (row : Int)
    (appointDateTime appointmentTime callStatus callSummary emailId : JVal) :
    Outcome × List CellWrite :=
  match env.openErr with
  | some m => (.response ("Internal Server Error: " ++ m) 500 [], [])
  | none =>
      let updates := updatesDict appointDateTime appointmentTime callStatus callSummary emailId
      if updates.isEmpty then
        (.response "No valid updates provided" 200 [], [])
      else
        match doWrites env row 0 updates with
        | (ws, some m) => (.response ("Internal Server Error: " ++ m) 500 [], ws)
        | (ws, none) => (.response "Google Sheet updated successfully" 200 [], ws)

/-- The handler `update_google_sheet(request)` of `src/main.py`.
`method` is `request.method`, `body` is what
`request.get_json(silent=True)` returned (`none` = missing/invalid),
`env` is the remote spreadsheet oracle. -/
def update_google_sheet (method : String) (body : Option JVal) (env : Env) : RunResult :=
  if method ≠ "POST" then
    ⟨.response "Method Not Allowed" 405 [], false, []⟩
  else
    match body with
    | none => ⟨.response "Bad Request: JSON payload missing or invalid" 400 [], false, []⟩
    | some j =>
        if ¬ j.truthy then
          ⟨.response "Bad Request: JSON payload missing or invalid" 400 [], false, []⟩
        else
          match j with
          | .obj fields =>
              let sheetRowIndex := objGet fields "sheetRowIndex"
              let appointDateTime := objGet fields "appointmentDate"
              let appointmentTime := objGet fields "appointmentTime"
              let callStatus := objGet fields "callStatus"
              let callSummary := objGet fields "callSummary"
              let emailId := objGet fields "email"
              if ¬ sheetRowIndex.truthy then
                ⟨.response "Bad Request: sheetRowIndex is required" 400 [], false, []⟩
              else
                match pyInt sheetRowIndex with
                | .error (.valueError _) =>
                    ⟨.response "Bad Request: sheetRowIndex must be an integer" 400 [], false, []⟩
                | .error e => ⟨.uncaught e, false, []⟩
                | .ok row =>
                    let r := tryUpdate env row appointDateTime appointmentTime
                      callStatus callSummary emailId
                    ⟨r.1, true, r.2⟩
          | _ =>
              -- `request_json.get(...)` on a non-dict truthy value raises
              -- AttributeError at line 90, outside every try block.
              ⟨.uncaught (.attributeError "object has no attribute get"), false, []⟩

/-- An `Env` that never raises. -/
def envOk : Env := ⟨none, fun _ => none⟩

/-- An `Env` whose `get_sheet()` raises with message `boom`. -/
def envBoom : Env := ⟨some "boom", fun _ => none⟩

/-- An `Env` whose second `update_cell` call (index 1) raises with
message `quota`. -/
def envFail1 : Env := ⟨none, fun k => if k = 1 then some "quota" else none⟩

/-- A payload whose parameters are nested under `toolInfo.parameters`. -/
def nestedPayload : JVal :=
  .obj [("toolInfo", .obj [("parameters",
    .obj [("sheetRowIndex", .num 2), ("callStatus", .str "Done")])])]

/-- The flat payload equivalent to `nestedPayload`. -/
def flatPayload : JVal :=
  .obj [("sheetRowIndex", .num 2), ("callStatus", .str "Done")]

/-! ## Helper lemmas -/

theorem truthy_obj (fields : List (String × JVal)) :
    (JVal.obj fields).truthy = !fields.isEmpty := rfl

theorem objGet_nil (k : String) : objGet [] k = JVal.null := rfl

/-- If some key has a truthy value, the object is nonempty. -/
theorem isEmpty_false_of_truthy (fields : List (String × JVal)) (k : String)
    (h : (objGet fields k).truthy = true) : fields.isEmpty = false := by
  cases fields with
  | nil => simp [objGet, JVal.truthy] at h
  | cons p ps => rfl

/-- A non-`POST` request is rejected with a 405 before anything else. -/
theorem run_not_post (method : String) (body : Option JVal) (env : Env)
    (h : method ≠ "POST") :
    update_google_sheet method body env =
      ⟨.response "Method Not Allowed" 405 [], false, []⟩ := by
  simp [update_google_sheet, h]

/-- An absent or unparseable body yields the 400 bad-payload response. -/
theorem run_no_body (env : Env) :
    update_google_sheet "POST" none env =
      ⟨.response "Bad Request: JSON payload missing or invalid" 400 [], false, []⟩ := rfl

/-- A body parsed to a falsy value yields the 400 bad-payload response. -/
theorem run_falsy_body (j : JVal) (env : Env) (h : j.truthy = false) :
    update_google_sheet "POST" (some j) env =
      ⟨.response "Bad Request: JSON payload missing or invalid" 400 [], false, []⟩ := by
  cases j <;> simp_all [update_google_sheet, JVal.truthy]

/-- A truthy object payload with falsy `sheetRowIndex` yields the 400
required-field response. -/
theorem run_falsy_rowIndex (fields : List (String × JVal)) (env : Env)
    (hne : fields.isEmpty = false)
    (hf : (objGet fields "sheetRowIndex").truthy = false) :
    update_google_sheet "POST" (some (.obj fields)) env =
      ⟨.response "Bad Request: sheetRowIndex is required" 400 [], false, []⟩ := by
  simp [update_google_sheet, truthy_obj, hne, hf]

/-- A truthy `sheetRowIndex` whose `int()` raises `ValueError` yields
the 400 must-be-integer response. -/
theorem run_valueError_rowIndex (fields : List (String × JVal)) (env : Env) (m : String)
    (ht : (objGet fields "sheetRowIndex").truthy = true)
    (hv : pyInt (objGet fields "sheetRowIndex") = .error (.valueError m)) :
    update_google_sheet "POST" (some (.obj fields)) env =
      ⟨.response "Bad Request: sheetRowIndex must be an integer" 400 [], false, []⟩ := by
  have hne := isEmpty_false_of_truthy fields "sheetRowIndex" ht
  simp [update_google_sheet, truthy_obj, hne, ht, hv]

/-- A truthy `sheetRowIndex` whose `int()` raises `TypeError` lets the
exception escape the handler. -/
theorem run_typeError_rowIndex (fields : List (String × JVal)) (env : Env) (m : String)
    (ht : (objGet fields "sheetRowIndex").truthy = true)
    (hv : pyInt (objGet fields "sheetRowIndex") = .error (.typeError m)) :
    update_google_sheet "POST" (some (.obj fields)) env =
      ⟨.uncaught (.typeError m), false, []⟩ := by
  have hne := isEmpty_false_of_truthy fields "sheetRowIndex" ht
  simp [update_google_sheet, truthy_obj, hne, ht, hv]

/-- An integer-convertible `sheetRowIndex` reaches the outer `try`. -/
theorem run_valid_rowIndex (fields : List (String × JVal)) (env : Env) (row : Int)
    (ht : (objGet fields "sheetRowIndex").truthy = true)
    (hok : pyInt (objGet fields "sheetRowIndex") = .ok row) :
    update_google_sheet "POST" (some (.obj fields)) env =
      ⟨(tryUpdate env row (objGet fields "appointmentDate")
          (objGet fields "appointmentTime") (objGet fields "callStatus")
          (objGet fields "callSummary") (objGet fields "email")).1,
        true,
        (tryUpdate env row (objGet fields "appointmentDate")
          (objGet fields "appointmentTime") (objGet fields "callStatus")
          (objGet fields "callSummary") (objGet fields "email")).2⟩ := by
  have hne := isEmpty_false_of_truthy fields "sheetRowIndex" ht
  simp [update_google_sheet, truthy_obj, hne, ht, hok]

/-- When no `update_cell` call raises, the loop writes every entry, in
order. -/
theorem doWrites_ok (env : Env) (row : Int)
    (h : ∀ k, env.writeErr k = none) :
    ∀ (u : List (Nat × JVal)) (i : Nat),
      doWrites env row i u = (u.map fun p => ⟨row, p.1, p.2⟩, none) := by
  intro u
  induction u with
  | nil => intro i; rfl
  | cons p rest ih =>
      intro i
      obtain ⟨c, v⟩ := p
      simp [doWrites, h i, ih (i + 1)]

/-- When the first raising `update_cell` call is the one at offset `k`,
the loop performs exactly the first `k` writes and stops with the
raised message. -/
theorem doWrites_fail (env : Env) (row : Int) (m : String) :
    ∀ (u : List (Nat × JVal)) (i k : Nat),
      (∀ j, j < k → env.writeErr (i + j) = none) →
      env.writeErr (i + k) = some m →
      k < u.length →
      doWrites env row i u = ((u.take k).map fun p => ⟨row, p.1, p.2⟩, some m) := by
  intro u
  induction u with
  | nil => intro i k h1 h2 h3; simp at h3
  | cons p rest ih =>
      intro i k h1 h2 h3
      obtain ⟨c, v⟩ := p
      cases k with
      | zero =>
          simp at h2
          simp [doWrites, h2]
      | succ k =>
          have h0 : env.writeErr i = none := by
            have := h1 0 (Nat.succ_pos k)
            simpa using this
          have h1s : ∀ j, j < k → env.writeErr (i + 1 + j) = none := by
            intro j hj
            have := h1 (j + 1) (by omega)
            have e : i + (j + 1) = i + 1 + j := by omega
            rwa [e] at this
          have h2s : env.writeErr (i + 1 + k) = some m := by
            have e : i + (k + 1) = i + 1 + k := by omega
            rwa [e] at h2
          have h3s : k < rest.length := by simpa using h3
          simp [doWrites, h0, ih (i + 1) k h1s h2s h3s]

/-- If `get_sheet()` raises, the outer `try` converts the exception to
the 500 response with its message, and no write is attempted. -/
theorem tryUpdate_openErr (env : Env) (row : Int)
    (a t s m e : JVal) (msg : String) (h : env.openErr = some msg) :
    tryUpdate env row a t s m e =
      (.response ("Internal Server Error: " ++ msg) 500 [], []) := by
  simp [tryUpdate, h]

/-- With a healthy environment the writes performed are exactly the
entries of the `updates` dict, in order. -/
theorem tryUpdate_writes_ok (env : Env) (row : Int) (a t s m e : JVal)
    (h1 : env.openErr = none) (h2 : ∀ k, env.writeErr k = none) :
    (tryUpdate env row a t s m e).2 =
      (updatesDict a t s m e).map fun p => ⟨row, p.1, p.2⟩ := by
  simp only [tryUpdate, h1]
  by_cases hu : (updatesDict a t s m e).isEmpty
  · rw [List.isEmpty_iff] at hu
    simp [hu]
  · simp [hu, doWrites_ok env row h2]

/-- Whatever the environment does, the outer `try` produces a
response, never an uncaught exception. -/
theorem tryUpdate_no_uncaught (env : Env) (row : Int) (a t s m e : JVal) :
    ∀ ex, (tryUpdate env row a t s m e).1 ≠ Outcome.uncaught ex := by
  intro ex
  unfold tryUpdate
  cases env.openErr with
  | some msg => simp
  | none =>
      by_cases hu : (updatesDict a t s m e).isEmpty
      · simp [hu]
      · simp only [hu]
        rcases hw : doWrites env row 0 (updatesDict a t s m e) with ⟨ws, err⟩
        cases err <;> simp [hw]

/-- The `updates` dict holds exactly the mapped fields whose payload
value is not `None`, with the source column numbers. -/
theorem updatesDict_eq_filter (a t s m e : JVal) :
    updatesDict a t s m e =
      [(5, a), (6, t), (7, s), (8, m), (9, e)].filter
        fun p => !p.2.isNull := by
  simp only [updatesDict, COL_APPOINT_DATE_TIME, COL_APPOINTMENT_TIME, COL_CALL_STATUS,
    COL_CALL_SUMMARY, COL_EMAIL_ID, List.filter, List.map]
  cases a.isNull <;> cases t.isNull <;> cases s.isNull <;> cases m.isNull <;>
    cases e.isNull <;> simp

/-- `int()` raises only `ValueError` or `TypeError`, never an
attribute or external error. -/
theorem pyInt_error_shape (v : JVal) (m : String) :
    pyInt v ≠ .error (.attributeError m) ∧ pyInt v ≠ .error (.external m) := by
  cases v with
  | null => simp [pyInt]
  | bool b => simp [pyInt]
  | num n => simp [pyInt]
  | arr l => simp [pyInt]
  | obj l => simp [pyInt]
  | str s =>
      simp only [pyInt]
      cases strToInt s <;> simp

/-- A truthy non-object payload makes `request_json.get` raise an
`AttributeError` that escapes the handler. -/
theorem run_nonobj_truthy (j : JVal) (env : Env) (ht : j.truthy = true)
    (hno : ∀ fields, j ≠ JVal.obj fields) :
    update_google_sheet "POST" (some j) env =
      ⟨.uncaught (.attributeError "object has no attribute get"), false, []⟩ := by
  cases j with
  | obj fields => exact absurd rfl (hno fields)
  | null => simp [JVal.truthy] at ht
  | bool b => simp [update_google_sheet, ht]
  | num n => simp [update_google_sheet, ht]
  | str s => simp [update_google_sheet, ht]
  | arr l => simp [update_google_sheet, ht]

/-- The spreadsheet client is reached (`opened = true`) only by a POST
with a truthy JSON object payload whose `sheetRowIndex` is truthy and
integer-convertible. -/
theorem opened_true_inv (method : String) (body : Option JVal) (env : Env)
    (h : (update_google_sheet method body env).opened = true) :
    ∃ fields row, method = "POST" ∧ body = some (JVal.obj fields) ∧
      (objGet fields "sheetRowIndex").truthy = true ∧
      pyInt (objGet fields "sheetRowIndex") = Except.ok row := by
  by_cases hm : method = "POST"
  · subst hm
    cases body with
    | none => rw [run_no_body] at h; simp at h
    | some j =>
        by_cases ht : j.truthy = true
        · cases j with
          | obj fields =>
              by_cases hs : (objGet fields "sheetRowIndex").truthy = true
              · cases hp : pyInt (objGet fields "sheetRowIndex") with
                | ok row => exact ⟨fields, row, rfl, rfl, hs, hp⟩
                | error e =>
                    cases e with
                    | valueError m =>
                        rw [run_valueError_rowIndex fields env m hs hp] at h
                        simp at h
                    | typeError m =>
                        rw [run_typeError_rowIndex fields env m hs hp] at h
                        simp at h
                    | attributeError m => exact absurd hp (pyInt_error_shape _ m).1
                    | external m => exact absurd hp (pyInt_error_shape _ m).2
              · have hf : (objGet fields "sheetRowIndex").truthy = false := by
                  cases hx : (objGet fields "sheetRowIndex").truthy
                  · rfl
                  · exact absurd hx hs
                have hne : fields.isEmpty = false := by
                  rw [truthy_obj] at ht
                  cases hfe : fields.isEmpty
                  · rfl
                  · rw [hfe] at ht; simp at ht
                rw [run_falsy_rowIndex fields env hne hf] at h
                simp at h
          | null => simp [JVal.truthy] at ht
          | bool b =>
              rw [run_nonobj_truthy _ env ht (fun _ hc => JVal.noConfusion hc)] at h
              simp at h
          | num n =>
              rw [run_nonobj_truthy _ env ht (fun _ hc => JVal.noConfusion hc)] at h
              simp at h
          | str s =>
              rw [run_nonobj_truthy _ env ht (fun _ hc => JVal.noConfusion hc)] at h
              simp at h
          | arr l =>
              rw [run_nonobj_truthy _ env ht (fun _ hc => JVal.noConfusion hc)] at h
              simp at h
        · have hf : j.truthy = false := by
            cases hx : j.truthy
            · rfl
            · exact absurd hx ht
          rw [run_falsy_body j env hf] at h
          simp at h
  · rw [run_not_post method body env hm] at h
    simp at h

/-! ## Claims -/

/-- C1 counterexample: the payload nested under `toolInfo.parameters`
is rejected with the 400 required-field response and zero writes,
while the equivalent flat payload succeeds with one write — responses
and writes differ, so processing is not invariant under the nesting. -/
theorem c1_counterexample :
    (update_google_sheet "POST" (some nestedPayload) envOk).outcome =
      Outcome.response "Bad Request: sheetRowIndex is required" 400 [] ∧
    (update_google_sheet "POST" (some nestedPayload) envOk).writes.length = 0 ∧
    (update_google_sheet "POST" (some flatPayload) envOk).outcome =
      Outcome.response "Google Sheet updated successfully" 200 [] ∧
    (update_google_sheet "POST" (some flatPayload) envOk).writes.length = 1 :=
  ⟨rfl, rfl, rfl, rfl⟩

/-- C1 amended: the handler reads parameters only from the top level
of the JSON body and never unwraps `toolInfo.parameters`; every
payload whose only top-level key is `toolInfo` is rejected with the
400 required-field response and causes no remote call. -/
theorem c1_no_toolInfo_unwrap (v : JVal) (env : Env) :
    update_google_sheet "POST" (some (JVal.obj [("toolInfo", v)])) env =
      ⟨Outcome.response "Bad Request: sheetRowIndex is required" 400 [], false, []⟩ :=
  run_falsy_rowIndex _ env rfl rfl

/-- C2 counterexample: an OPTIONS request returns 405 Method Not
Allowed with no headers — not 204 and no CORS headers. -/
theorem c2_counterexample :
    update_google_sheet "OPTIONS" (some (JVal.obj [])) envOk =
      ⟨Outcome.response "Method Not Allowed" 405 [], false, []⟩ ∧
    (update_google_sheet "OPTIONS" (some (JVal.obj [])) envOk).outcome.statusOf ≠
      some 204 :=
  ⟨rfl, by decide⟩

/-- C2 amended: an OPTIONS request is rejected by the method check
with status 405 and no headers, and never invokes the spreadsheet
client (no open, no writes). -/
theorem c2_options_rejected (body : Option JVal) (env : Env) :
    update_google_sheet "OPTIONS" body env =
      ⟨Outcome.response "Method Not Allowed" 405 [], false, []⟩ :=
  run_not_post _ _ _ (by decide)

/-- C3 counterexample: a POST whose valid JSON body carries
`sheetRowIndex` as a (truthy) list is not answered with a 400: the
`int()` conversion raises a `TypeError` that the `except ValueError`
clause does not catch, so no response is produced at all. -/
theorem c3_counterexample :
    (update_google_sheet "POST"
        (some (JVal.obj [("sheetRowIndex", JVal.arr [JVal.num 1])])) envOk).outcome =
      Outcome.uncaught (PyExn.typeError "int() argument must not be list") ∧
    (update_google_sheet "POST"
        (some (JVal.obj [("sheetRowIndex", JVal.arr [JVal.num 1])])) envOk).outcome.statusOf =
      none :=
  ⟨rfl, rfl⟩

/-- C3 amended: for every POST with a valid JSON object body in which
`sheetRowIndex` is absent or falsy, or present but with an `int()`
conversion that raises `ValueError` (strings that do not parse as an
integer), the handler returns a 400 client-error response and performs
zero remote spreadsheet calls; a truthy list or dict value instead
raises an uncaught `TypeError`. -/
theorem c3_invalid_rowIndex_rejected (fields : List (String × JVal)) (env : Env)
    (h : (objGet fields "sheetRowIndex").truthy = false ∨
      ∃ m, pyInt (objGet fields "sheetRowIndex") = Except.error (PyExn.valueError m)) :
    ∃ b, update_google_sheet "POST" (some (JVal.obj fields)) env =
      ⟨Outcome.response b 400 [], false, []⟩ := by
  by_cases ht : (objGet fields "sheetRowIndex").truthy = true
  · rcases h with hf | ⟨m, hm⟩
    · exact absurd ht (by simp [hf])
    · exact ⟨_, run_valueError_rowIndex fields env m ht hm⟩
  · have hf : (objGet fields "sheetRowIndex").truthy = false := by
      cases hx : (objGet fields "sheetRowIndex").truthy
      · rfl
      · exact absurd hx ht
    cases hfe : fields.isEmpty
    · exact ⟨_, run_falsy_rowIndex fields env hfe hf⟩
    · have : fields = [] := by
        cases fields
        · rfl
        · simp at hfe
      subst this
      exact ⟨_, run_falsy_body _ env rfl⟩

/-- C3 witness: a string `sheetRowIndex` that does not parse as an
integer gets a 400 with zero remote calls. -/
theorem c3_witness :
    ∃ b, update_google_sheet "POST"
        (some (JVal.obj [("sheetRowIndex", JVal.str "abc")])) envOk =
      ⟨Outcome.response b 400 [], false, []⟩ :=
  c3_invalid_rowIndex_rejected _ envOk
    (Or.inr ⟨"invalid literal for int() with base 10: abc", rfl⟩)

/-- C4: for every valid update payload, the handler writes exactly one
cell per mapped field (appointmentDate to column 5, appointmentTime to
column 6, callStatus to column 7, callSummary to column 8, email to
column 9) whose payload value is present and non-null, in that order,
and issues no write for a field that is absent or null. -/
theorem c4_sparse_update (fields : List (String × JVal)) (env : Env) (row : Int)
    (h1 : env.openErr = none) (h2 : ∀ k, env.writeErr k = none)
    (h3 : (objGet fields "sheetRowIndex").truthy = true)
    (h4 : pyInt (objGet fields "sheetRowIndex") = Except.ok row) :
    (update_google_sheet "POST" (some (JVal.obj fields)) env).writes =
      ([(5, objGet fields "appointmentDate"), (6, objGet fields "appointmentTime"),
        (7, objGet fields "callStatus"), (8, objGet fields "callSummary"),
        (9, objGet fields "email")].filter fun p => !p.2.isNull).map
        fun p => ⟨row, p.1, p.2⟩ := by
  rw [run_valid_rowIndex fields env row h3 h4]
  exact (tryUpdate_writes_ok env row _ _ _ _ _ h1 h2).trans
    (by rw [updatesDict_eq_filter])

/-- C4 witness: a payload with `callStatus` present, `email` null and
the other mapped fields absent produces exactly one write, to
(row 7, column 7). -/
theorem c4_witness :
    (update_google_sheet "POST"
        (some (JVal.obj [("sheetRowIndex", JVal.str "7"),
          ("callStatus", JVal.str "Declined"), ("email", JVal.null)])) envOk).writes =
      [⟨7, 7, JVal.str "Declined"⟩] :=
  (c4_sparse_update [("sheetRowIndex", JVal.str "7"),
      ("callStatus", JVal.str "Declined"), ("email", JVal.null)] envOk 7
      rfl (fun _ => rfl) rfl rfl).trans rfl

/-- C5: once the handler has begun its downstream work (the
spreadsheet client was invoked), every exception of connection setup,
worksheet open or cell writes is caught inside the handler — the
outcome is never an uncaught fault — and an exception of the
connection/open phase is converted into the 500 error response
carrying the message text of the exception. -/
theorem c5_downstream_caught (method : String) (body : Option JVal) (env : Env)
    (h : (update_google_sheet method body env).opened = true) :
    (∀ ex, (update_google_sheet method body env).outcome ≠ Outcome.uncaught ex) ∧
    (∀ msg, env.openErr = some msg →
      (update_google_sheet method body env).outcome =
        Outcome.response ("Internal Server Error: " ++ msg) 500 []) := by
  obtain ⟨fields, row, hmeth, hbody, hs, hp⟩ := opened_true_inv method body env h
  subst hmeth
  subst hbody
  rw [run_valid_rowIndex fields env row hs hp]
  constructor
  · intro ex
    exact tryUpdate_no_uncaught env row _ _ _ _ _ ex
  · intro msg hmsg
    show (tryUpdate env row _ _ _ _ _).1 = _
    rw [tryUpdate_openErr env row _ _ _ _ _ msg hmsg]

/-- C5 witness: with a failing `get_sheet()`, a valid update request
gets the 500 response carrying the message, and no exception escapes. -/
theorem c5_witness :
    (update_google_sheet "POST" (some (JVal.obj [("sheetRowIndex", JVal.num 1)]))
        envBoom).outcome ≠ Outcome.uncaught (PyExn.external "x") ∧
    (update_google_sheet "POST" (some (JVal.obj [("sheetRowIndex", JVal.num 1)]))
        envBoom).outcome = Outcome.response "Internal Server Error: boom" 500 [] := by
  have hc := c5_downstream_caught "POST"
    (some (JVal.obj [("sheetRowIndex", JVal.num 1)])) envBoom rfl
  exact ⟨hc.1 _, hc.2 "boom" rfl⟩

/-- C6: if the `update_cell` call at position k of the updates raises,
exactly the first k writes were performed (and are kept — no
rollback), the remaining mapped fields are not written, and the
handler returns the 500 error response with the message. -/
theorem c6_write_failure_aborts (fields : List (String × JVal)) (env : Env)
    (row : Int) (k : Nat) (m : String)
    (h1 : env.openErr = none)
    (h2 : ∀ j, j < k → env.writeErr j = none)
    (h3 : env.writeErr k = some m)
    (h4 : (objGet fields "sheetRowIndex").truthy = true)
    (h5 : pyInt (objGet fields "sheetRowIndex") = Except.ok row)
    (h6 : k < (updatesDict (objGet fields "appointmentDate")
      (objGet fields "appointmentTime") (objGet fields "callStatus")
      (objGet fields "callSummary") (objGet fields "email")).length) :
    (update_google_sheet "POST" (some (JVal.obj fields)) env).writes =
      ((updatesDict (objGet fields "appointmentDate")
        (objGet fields "appointmentTime") (objGet fields "callStatus")
        (objGet fields "callSummary") (objGet fields "email")).take k).map
        (fun p => ⟨row, p.1, p.2⟩) ∧
    (update_google_sheet "POST" (some (JVal.obj fields)) env).outcome =
      Outcome.response ("Internal Server Error: " ++ m) 500 [] := by
  rw [run_valid_rowIndex fields env row h4 h5]
  have hne : (updatesDict (objGet fields "appointmentDate")
      (objGet fields "appointmentTime") (objGet fields "callStatus")
      (objGet fields "callSummary") (objGet fields "email")).isEmpty = false := by
    cases hu : (updatesDict (objGet fields "appointmentDate")
        (objGet fields "appointmentTime") (objGet fields "callStatus")
        (objGet fields "callSummary") (objGet fields "email")) with
    | nil => rw [hu] at h6; simp at h6
    | cons p ps => rfl
  have hw := doWrites_fail env row m (updatesDict (objGet fields "appointmentDate")
    (objGet fields "appointmentTime") (objGet fields "callStatus")
    (objGet fields "callSummary") (objGet fields "email")) 0 k
    (by simpa using h2) (by simpa using h3) h6
  constructor
  · show (tryUpdate env row _ _ _ _ _).2 = _
    simp only [tryUpdate, h1, hne, Bool.false_eq_true, if_false, hw]
  · show (tryUpdate env row _ _ _ _ _).1 = _
    simp only [tryUpdate, h1, hne, Bool.false_eq_true, if_false, hw]

/-- C6 witness: with the second `update_cell` call failing, a payload
carrying `appointmentDate` and `email` performs only the first write
(kept, not rolled back) and yields the 500 response. -/
theorem c6_witness :
    (update_google_sheet "POST"
        (some (JVal.obj [("sheetRowIndex", JVal.num 2),
          ("appointmentDate", JVal.str "d"), ("email", JVal.str "e")]))
        envFail1).writes = [⟨2, 5, JVal.str "d"⟩] ∧
    (update_google_sheet "POST"
        (some (JVal.obj [("sheetRowIndex", JVal.num 2),
          ("appointmentDate", JVal.str "d"), ("email", JVal.str "e")]))
        envFail1).outcome = Outcome.response "Internal Server Error: quota" 500 [] := by
  have hc := c6_write_failure_aborts
    [("sheetRowIndex", JVal.num 2), ("appointmentDate", JVal.str "d"),
      ("email", JVal.str "e")] envFail1 2 1 "quota" rfl
    (fun j hj => by interval_cases j; rfl) rfl rfl rfl (by decide)
  exact ⟨hc.1.trans rfl, hc.2⟩

/-- C7: a valid update payload in which none of the five mapped fields
is present and non-null returns the 200 no-op response and performs
zero remote spreadsheet writes. -/
theorem c7_noop_success (fields : List (String × JVal)) (env : Env) (row : Int)
    (h1 : env.openErr = none)
    (h2 : (objGet fields "sheetRowIndex").truthy = true)
    (h3 : pyInt (objGet fields "sheetRowIndex") = Except.ok row)
    (ha : objGet fields "appointmentDate" = JVal.null)
    (hb : objGet fields "appointmentTime" = JVal.null)
    (hc : objGet fields "callStatus" = JVal.null)
    (hd : objGet fields "callSummary" = JVal.null)
    (he : objGet fields "email" = JVal.null) :
    update_google_sheet "POST" (some (JVal.obj fields)) env =
      ⟨Outcome.response "No valid updates provided" 200 [], true, []⟩ := by
  rw [run_valid_rowIndex fields env row h2 h3, ha, hb, hc, hd, he]
  have hu : updatesDict JVal.null JVal.null JVal.null JVal.null JVal.null = [] := rfl
  simp [tryUpdate, h1, hu]

/-- C7 witness: a payload holding only `sheetRowIndex` is a successful
no-op. -/
theorem c7_witness :
    update_google_sheet "POST" (some (JVal.obj [("sheetRowIndex", JVal.num 3)])) envOk =
      ⟨Outcome.response "No valid updates provided" 200 [], true, []⟩ :=
  c7_noop_success [("sheetRowIndex", JVal.num 3)] envOk 3
    rfl rfl rfl rfl rfl rfl rfl rfl

/-- C8: every request whose method is not POST gets status 405 with no
remote call and no write. -/
theorem c8_non_post_rejected (method : String) (body : Option JVal) (env : Env)
    (h : method ≠ "POST") :
    update_google_sheet method body env =
      ⟨Outcome.response "Method Not Allowed" 405 [], false, []⟩ :=
  run_not_post method body env h

/-- C8 witness: a GET request gets the 405 with no remote activity. -/
theorem c8_witness :
    update_google_sheet "GET" none envOk =
      ⟨Outcome.response "Method Not Allowed" 405 [], false, []⟩ :=
  c8_non_post_rejected "GET" none envOk (by decide)

/-- C9: a present but falsy `sheetRowIndex` value is rejected with the
same 400 missing-field response as an absent key, with zero remote
calls: presence is tested by truthiness, not key membership. -/
theorem c9_falsy_rowIndex (fields : List (String × JVal)) (env : Env) (v : JVal)
    (h1 : fields.lookup "sheetRowIndex" = some v)
    (h2 : v.truthy = false) :
    update_google_sheet "POST" (some (JVal.obj fields)) env =
      ⟨Outcome.response "Bad Request: sheetRowIndex is required" 400 [], false, []⟩ := by
  have hv : objGet fields "sheetRowIndex" = v := by simp [objGet, h1]
  have hne : fields.isEmpty = false := by
    cases fields
    · simp at h1
    · rfl
  exact run_falsy_rowIndex fields env hne (hv ▸ h2)

/-- C9 witness: `sheetRowIndex` equal to the integer 0 yields the 400
missing-field response. -/
theorem c9_witness :
    update_google_sheet "POST" (some (JVal.obj [("sheetRowIndex", JVal.num 0)])) envOk =
      ⟨Outcome.response "Bad Request: sheetRowIndex is required" 400 [], false, []⟩ :=
  c9_falsy_rowIndex [("sheetRowIndex", JVal.num 0)] envOk (JVal.num 0) rfl rfl

/-- C10: a body parsed to a falsy JSON value is treated identically to
an unparseable body: the 400 bad-payload response with zero remote
writes, before any field validation. -/
theorem c10_falsy_payload (j : JVal) (env : Env) (h : j.truthy = false) :
    update_google_sheet "POST" (some j) env = update_google_sheet "POST" none env ∧
    update_google_sheet "POST" (some j) env =
      ⟨Outcome.response "Bad Request: JSON payload missing or invalid" 400 [], false, []⟩ := by
  refine ⟨?_, run_falsy_body j env h⟩
  rw [run_falsy_body j env h, run_no_body]

/-- C10 witness: the empty object payload gets the bad-payload 400. -/
theorem c10_witness :
    update_google_sheet "POST" (some (JVal.obj [])) envOk =
      update_google_sheet "POST" none envOk ∧
    update_google_sheet "POST" (some (JVal.obj [])) envOk =
      ⟨Outcome.response "Bad Request: JSON payload missing or invalid" 400 [], false, []⟩ :=
  c10_falsy_payload (JVal.obj []) envOk rfl
